import Mathlib

/-!
Verification of the resilient streaming broadcast layer of the
Multi-LLM-interface backend: a shallow embedding of
`backend/error_handler.py` (error classification, retry policies,
circuit breaker, resilient executor), `backend/websocket_manager.py`
(connection fan-out manager) and the wire event model of
`backend/models.py`, together with theorems settling the spec claims.

Conventions of the embedding:
* Python `float` time and delay values are modelled as `ℚ`;
  `datetime.now()` becomes an explicit `now : ℚ` parameter.
* Python exceptions become `Except String` values carrying the
  exception's message string (`str(error)`), since the executor's
  classifier only ever consumes that string.
* `random.random()` becomes an explicit sample `r : ℚ` with
  `0 ≤ r < 1`.
* The executor's `asyncio.sleep(delay)` is observable only through
  the number of suspensions, which the model counts.
-/

namespace MLLM

/-- Embeds `ErrorType` of `backend/error_handler.py` (lines 16-24). -/
inductive ErrorType where
  | rate_limit
  | timeout
  | auth_error
  | service_error
  | network_error
  | validation_error
  | unknown_error
  deriving DecidableEq, Repr

/-- Embeds `RetryStrategy.__init__` of `backend/error_handler.py`
(lines 30-42): configuration of retry behaviour. -/
structure RetryStrategy where
  max_retries : Nat
  base_delay : ℚ
  max_delay : ℚ
  exponential_base : ℚ
  jitter : Bool
  deriving DecidableEq, Repr

/-- The constructor defaults of `RetryStrategy`
(`max_retries=3, base_delay=1.0, max_delay=60.0, exponential_base=2.0,
jitter=True`). -/
def RetryStrategy.default : RetryStrategy :=
  { max_retries := 3, base_delay := 1, max_delay := 60
    exponential_base := 2, jitter := true }

/-- Embeds `RetryStrategy.get_delay` (lines 44-53): exponential backoff
with cap, then an optional jitter factor `0.5 + r * 0.5` where `r` is
the `random.random()` sample. -/
def RetryStrategy.get_delay (s : RetryStrategy) (attempt : Nat) (r : ℚ) : ℚ :=
  let delay := s.base_delay * s.exponential_base ^ attempt
  let delay := min delay s.max_delay
  if s.jitter then delay * (1/2 + r * (1/2)) else delay

/-- Embeds the `retry_strategies` table built in `ErrorHandler.__init__`
(lines 110-118); unspecified fields take the constructor defaults. -/
def retry_strategies : ErrorType → RetryStrategy
  | .rate_limit =>
      { RetryStrategy.default with max_retries := 5, base_delay := 2, max_delay := 120 }
  | .timeout =>
      { RetryStrategy.default with max_retries := 3, base_delay := 1, max_delay := 30 }
  | .service_error =>
      { RetryStrategy.default with max_retries := 3, base_delay := 5, max_delay := 60 }
  | .network_error =>
      { RetryStrategy.default with max_retries := 4, base_delay := 1, max_delay := 30 }
  | .auth_error =>
      { RetryStrategy.default with max_retries := 0 }
  | .validation_error =>
      { RetryStrategy.default with max_retries := 0 }
  | .unknown_error =>
      { RetryStrategy.default with max_retries := 2, base_delay := 2, max_delay := 30 }

/-- `sub` occurs as a contiguous substring of `s` (Python `sub in s`). -/
def strContains (s sub : String) : Bool :=
  decide (sub.toList <:+: s.toList)

/-- Python `str.lower()` (character-wise lowercasing; the classifier
only ever matches ASCII keywords). -/
def lowerStr (s : String) : String :=
  String.mk (s.data.map Char.toLower)

/-- The message-text fallback of `ErrorHandler.classify_error`
(lines 141-152): case-insensitive substring matching on `str(error)`. -/
def classify_message (errorStr : String) : ErrorType :=
  let s := lowerStr errorStr
  if strContains s "timeout" || strContains s "timed out" then .timeout
  else if strContains s "rate limit" || strContains s "too many requests" then .rate_limit
  else if strContains s "auth" || strContains s "unauthorized" then .auth_error
  else if strContains s "network" || strContains s "connection" then .network_error
  else .unknown_error

/-- Embeds `ErrorHandler.classify_error` (lines 120-152).  The Python
guard `if status_code:` is truthiness: `None` and `0` both fall through
to the message branch. -/
def classify_error (errorStr : String) (status_code : Option Nat) : ErrorType :=
  match status_code with
  | some c =>
      if c ≠ 0 then
        if c = 429 then .rate_limit
        else if c = 401 ∨ c = 403 then .auth_error
        else if 500 ≤ c then .service_error
        else if 400 ≤ c then .validation_error
        else classify_message errorStr
      else classify_message errorStr
  | none => classify_message errorStr

/-- The three circuit breaker states (`self.state` strings in
`CircuitBreaker.__init__`, line 71). -/
inductive CBState where
  | closed
  | «open»
  | halfOpen
  deriving DecidableEq, Repr

/-- Embeds `CircuitBreaker` (lines 56-71): configuration plus mutable
state (`failure_count`, `last_failure_time`, `state`). -/
structure CircuitBreaker where
  failure_threshold : Nat
  recovery_timeout : ℚ
  failure_count : Nat
  last_failure_time : Option ℚ
  state : CBState
  deriving DecidableEq, Repr

/-- A freshly constructed `CircuitBreaker()` with the defaults of
lines 59-71: threshold 5, recovery timeout 60 s, closed. -/
def CircuitBreaker.fresh : CircuitBreaker :=
  { failure_threshold := 5, recovery_timeout := 60
    failure_count := 0, last_failure_time := none, state := .closed }

/-- Embeds `CircuitBreaker.can_execute` (lines 73-85).  Returns the
permission bit together with the (possibly transitioned) breaker;
`none` models the `TypeError` Python would raise on subtracting from a
`None` `last_failure_time` while open (unreachable in the real system,
where `open` is only ever entered by `record_failure`). -/
def CircuitBreaker.can_execute (cb : CircuitBreaker) (now : ℚ) :
    Option (Bool × CircuitBreaker) :=
  match cb.state with
  | .closed => some (true, cb)
  | .open =>
      match cb.last_failure_time with
      | none => none
      | some t =>
          if now - t > cb.recovery_timeout then
            some (true, { cb with state := .halfOpen })
          else
            some (false, cb)
  | .halfOpen => some (true, cb)

/-- Embeds `CircuitBreaker.record_success` (lines 87-90). -/
def CircuitBreaker.record_success (cb : CircuitBreaker) : CircuitBreaker :=
  { cb with failure_count := 0, state := .closed }

/-- Embeds `CircuitBreaker.record_failure` (lines 92-98), with the
current wall-clock time passed explicitly. -/
def CircuitBreaker.record_failure (cb : CircuitBreaker) (now : ℚ) : CircuitBreaker :=
  let cb := { cb with failure_count := cb.failure_count + 1, last_failure_time := some now }
  if cb.failure_threshold ≤ cb.failure_count then { cb with state := .open }
  else cb

/-- Observable outcome of one `execute_with_retry` call: the returned
value or propagated error, how many times the operation was invoked,
how many backoff sleeps happened, and the provider's breaker
afterwards. -/
structure RetryOutcome (α : Type) where
  result : Except String α
  attempts : Nat
  sleeps : Nat
  breaker : CircuitBreaker
  deriving Repr

/-- Embeds the `for attempt in range(...)` loop of
`ErrorHandler.execute_with_retry` (lines 195-263).  `fuel` is the
number of loop iterations still available, `attempt` the current loop
index, `last_error` the `last_error` variable and `sleeps` the number
of `asyncio.sleep` suspensions so far.  When the range is exhausted the
code falls through to line 253: one more `record_failure`, then
`raise last_error`; when `attempt >= retry_strategy.max_retries` the
loop records a failure (line 233), breaks, and then the same fall
through code records a second failure. -/
def retryLoop {α : Type} (rs : ErrorType → RetryStrategy)
    (op : Nat → Except String α) (now : ℚ) (cb : CircuitBreaker)
    (attempt : Nat) (fuel : Nat) (last_error : Option String) (sleeps : Nat) :
    RetryOutcome α :=
  match fuel with
  | 0 =>
      { result := .error (last_error.getD ""), attempts := attempt
        sleeps := sleeps, breaker := cb.record_failure now }
  | fuel + 1 =>
      match op attempt with
      | .ok a =>
          { result := .ok a, attempts := attempt + 1
            sleeps := sleeps, breaker := cb.record_success }
      | .error e =>
          let error_type := classify_error e none
          let retry_strategy := rs error_type
          if retry_strategy.max_retries ≤ attempt then
            { result := .error e, attempts := attempt + 1, sleeps := sleeps
              breaker := (cb.record_failure now).record_failure now }
          else
            retryLoop rs op now cb (attempt + 1) fuel (some e) (sleeps + 1)

/-- Embeds `ErrorHandler.execute_with_retry` (lines 160-263) for one
provider breaker `cb`.  The operation is modelled as a function from
the attempt index to that attempt's outcome.  Note the loop bound of
line 197: `range(self.retry_strategies[ErrorType.UNKNOWN_ERROR].max_retries + 1)`.
`none` models the unreachable crash inside `can_execute`. -/
def execute_with_retry {α : Type} (rs : ErrorType → RetryStrategy)
    (op : Nat → Except String α) (provider : String) (now : ℚ)
    (cb : CircuitBreaker) : Option (RetryOutcome α) :=
  match cb.can_execute now with
  | none => none
  | some (false, cb1) =>
      some { result := .error ("Circuit breaker open for provider " ++ provider)
             attempts := 0, sleeps := 0, breaker := cb1 }
  | some (true, cb1) =>
      some (retryLoop rs op now cb1 0 ((rs .unknown_error).max_retries + 1) none 0)

/-- The provider breaker after one `execute_with_retry` call whose
every attempt fails with message `e` (identity when the model's
unreachable crash branch is hit). -/
def stepBreaker (e provider : String) (now : ℚ) (cb : CircuitBreaker) :
    CircuitBreaker :=
  match execute_with_retry retry_strategies
      (fun _ => (Except.error e : Except String Unit)) provider now cb with
  | some out => out.breaker
  | none => cb

/-! ## Wire event model (`backend/models.py`) -/

/-- A minimal JSON value type, the target of Pydantic's
`model_dump_json` in this embedding.  Python `None` serializes to
`null`; numbers are collapsed to `ℚ`. -/
inductive Json where
  | null
  | jbool (b : Bool)
  | num (q : ℚ)
  | str (s : String)
  | obj (fields : List (String × Json))

/-- The field names of a serialized object (empty for non-objects). -/
def Json.fieldNames : Json → List String
  | .obj fields => fields.map Prod.fst
  | _ => []

/-- Embeds `TokenData` of `backend/models.py` (lines 91-93). -/
structure TokenData where
  token : String
  position : Int
  deriving DecidableEq, Repr

/-- Embeds `FinalData` (lines 96-99). -/
structure FinalData where
  content : String
  finish_reason : String
  message_id : Option String
  deriving DecidableEq, Repr

/-- Embeds `MeterData` (lines 102-105). -/
structure MeterData where
  tokens_used : Int
  cost : ℚ
  latency : Int
  deriving DecidableEq, Repr

/-- Embeds `ErrorData` (lines 108-111). -/
structure ErrorData where
  message : String
  code : Option String
  retryable : Bool
  deriving DecidableEq, Repr

/-- Embeds `StatusData` (lines 114-116). -/
structure StatusData where
  status : String
  message : Option String
  deriving DecidableEq, Repr

/-- The payload union
`Union[TokenData, FinalData, MeterData, ErrorData, StatusData]` of
`StreamEvent.data` (line 122). -/
inductive EventData where
  | token (d : TokenData)
  | final (d : FinalData)
  | meter (d : MeterData)
  | error (d : ErrorData)
  | status (d : StatusData)
  deriving DecidableEq, Repr

/-- Embeds `StreamEvent` (lines 119-123).  `type` is the
`Literal["token", "final", "meter", "error", "status"]` discriminator,
which Pydantic does not tie to the runtime class of `data`; the
datetime `timestamp` is kept as its ISO string. -/
structure StreamEvent where
  type : String
  pane_id : String
  data : EventData
  timestamp : String
  deriving DecidableEq, Repr

/-- Pydantic serialization of each payload model: fields in declaration
order, `None` as `null`. -/
def EventData.toJson : EventData → Json
  | .token d => .obj [("token", .str d.token), ("position", .num d.position)]
  | .final d => .obj [("content", .str d.content),
      ("finish_reason", .str d.finish_reason),
      ("message_id", match d.message_id with | some m => .str m | none => .null)]
  | .meter d => .obj [("tokens_used", .num d.tokens_used), ("cost", .num d.cost),
      ("latency", .num d.latency)]
  | .error d => .obj [("message", .str d.message),
      ("code", match d.code with | some c => .str c | none => .null),
      ("retryable", .jbool d.retryable)]
  | .status d => .obj [("status", .str d.status),
      ("message", match d.message with | some m => .str m | none => .null)]

/-- Pydantic `StreamEvent.model_dump_json` (used by
`send_event`, `websocket_manager.py` line 164): the four declared
fields in order. -/
def StreamEvent.model_dump_json (ev : StreamEvent) : Json :=
  .obj [("type", .str ev.type), ("pane_id", .str ev.pane_id),
        ("data", ev.data.toJson), ("timestamp", .str ev.timestamp)]

/-! ## Connection fan-out manager (`backend/websocket_manager.py`) -/

/-- Embeds `ConnectionInfo` (lines 18-27); the transport handle is
dropped (its behaviour is the per-send outcome below), datetimes are
`ℚ`. -/
structure ConnInfo where
  session_id : String
  connected_at : ℚ
  last_ping : ℚ
  failed_sends : Nat
  is_alive : Bool
  deriving DecidableEq, Repr

/-- State of `EnhancedConnectionManager` (lines 36-43): the connection
table `connections` and the session index `session_connections`, both
as partial maps; a session's connection id set is a duplicate-free
list. -/
structure ManagerState where
  connections : String → Option ConnInfo
  session_connections : String → Option (List String)

/-- Point update of a partial map. -/
def upd {β : Type} (f : String → Option β) (k : String) (v : Option β) :
    String → Option β :=
  fun x => if x = k then v else f x

/-- The `max_failed_sends` threshold of the manager (line 41). -/
def max_failed_sends : Nat := 3

/-- The empty manager (fresh `EnhancedConnectionManager()`). -/
def ManagerState.empty : ManagerState :=
  { connections := fun _ => none, session_connections := fun _ => none }

/-- Embeds the successful path of `EnhancedConnectionManager.connect`
(lines 52-86): register `connection_id` (the fresh `uuid4`) under
`session_id` at time `now`. -/
def ManagerState.connect (st : ManagerState) (connection_id session_id : String)
    (now : ℚ) : ManagerState :=
  let info : ConnInfo :=
    { session_id := session_id, connected_at := now, last_ping := now
      failed_sends := 0, is_alive := true }
  let conns := upd st.connections connection_id (some info)
  let idx :=
    match st.session_connections session_id with
    | none => upd st.session_connections session_id (some [connection_id])
    | some l => upd st.session_connections session_id (some (l.insert connection_id))
  { connections := conns, session_connections := idx }

/-- Embeds `EnhancedConnectionManager.disconnect` (lines 96-126):
no-op for unknown ids; otherwise remove from the table, discard from
the session's index set, and delete the index entry if it became
empty. -/
def ManagerState.disconnect (st : ManagerState) (connection_id : String) :
    ManagerState :=
  match st.connections connection_id with
  | none => st
  | some info =>
      let conns := upd st.connections connection_id none
      let idx :=
        match st.session_connections info.session_id with
        | none => st.session_connections
        | some l =>
            let l := l.erase connection_id
            if l = [] then upd st.session_connections info.session_id none
            else upd st.session_connections info.session_id (some l)
      { connections := conns, session_connections := idx }

/-- Outcome of one `websocket.send_text` call during a broadcast:
success, `WebSocketDisconnect`, or any other exception. -/
inductive SendOutcome where
  | ok
  | wsDisconnect
  | sendError
  deriving DecidableEq, Repr

/-- Embeds the per-connection loop of
`EnhancedConnectionManager.send_event` (lines 156-207): returns the
updated connection table, the number of successful sends, and the
`failed_connections` list in iteration order. -/
def sendLoop (outcome : String → SendOutcome) (cids : List String)
    (conns : String → Option ConnInfo) :
    (String → Option ConnInfo) × Nat × List String :=
  match cids with
  | [] => (conns, 0, [])
  | cid :: rest =>
      match conns cid with
      | none =>
          let r := sendLoop outcome rest conns
          (r.1, r.2.1, cid :: r.2.2)
      | some info =>
          match outcome cid with
          | .ok =>
              let r := sendLoop outcome rest
                (upd conns cid (some { info with failed_sends := 0 }))
              (r.1, r.2.1 + 1, r.2.2)
          | .wsDisconnect =>
              let r := sendLoop outcome rest conns
              (r.1, r.2.1, cid :: r.2.2)
          | .sendError =>
              let fs := info.failed_sends + 1
              let info :=
                if max_failed_sends ≤ fs then
                  { info with failed_sends := fs, is_alive := false }
                else
                  { info with failed_sends := fs }
              let r := sendLoop outcome rest (upd conns cid (some info))
              if max_failed_sends ≤ fs then (r.1, r.2.1, cid :: r.2.2)
              else (r.1, r.2.1, r.2.2)

/-- Embeds `EnhancedConnectionManager.send_event` (lines 128-222):
broadcast to every connection of `session_id`, where `outcome` gives
each target's transport behaviour; afterwards `disconnect` every
failed connection; return whether at least one send succeeded. -/
def ManagerState.send_event (st : ManagerState) (session_id : String)
    (outcome : String → SendOutcome) : ManagerState × Bool :=
  match st.session_connections session_id with
  | none => (st, false)
  | some cids =>
      let r := sendLoop outcome cids st.connections
      let st1 : ManagerState :=
        { connections := r.1, session_connections := st.session_connections }
      let st2 := r.2.2.foldl (fun s c => s.disconnect c) st1
      (st2, 0 < r.2.1)

/-- The session index ↔ connection table consistency invariant of the
fan-out manager (spec §3): every id listed under a session exists in
the table and belongs to that session, every tabled connection is
listed under exactly its own session, and each session's id set is
duplicate-free. -/
def Consistent (st : ManagerState) : Prop :=
  (∀ sid l cid, st.session_connections sid = some l → cid ∈ l →
      ∃ info, st.connections cid = some info ∧ info.session_id = sid)
  ∧ (∀ cid info, st.connections cid = some info →
      ∃ l, st.session_connections info.session_id = some l ∧ cid ∈ l)
  ∧ (∀ sid l, st.session_connections sid = some l → l.Nodup)

/-- No session present in the index maps to an empty id set. -/
def NonEmptyIdx (st : ManagerState) : Prop :=
  ∀ sid l, st.session_connections sid = some l → l ≠ []

/-- A manager holding exactly one connection `"c"` of session `"s"`
with `failed_sends = k` and liveness flag `b`. -/
def singleConnState (k : Nat) (b : Bool) (t : ℚ) : ManagerState :=
  { connections := fun x =>
      if x = "c" then
        some { session_id := "s", connected_at := t, last_ping := t
               failed_sends := k, is_alive := b }
      else none
    session_connections := fun x => if x = "s" then some ["c"] else none }

/-- The provider breaker after a sequence of `execute_with_retry`
calls at the given times, each of whose attempts all fail with
message `e`. -/
def breakerAfterCalls (e provider : String) (times : List ℚ)
    (cb : CircuitBreaker) : CircuitBreaker :=
  times.foldl (fun b t => stepBreaker e provider t b) cb

/-! ## Theorems -/

/-- `classify_error` on a non-zero status code, written as one if-chain. -/
theorem classify_error_some (e : String) (c : Nat) (h0 : c ≠ 0) :
    classify_error e (some c)
      = if c = 429 then .rate_limit
        else if c = 401 ∨ c = 403 then .auth_error
        else if 500 ≤ c then .service_error
        else if 400 ≤ c then .validation_error
        else classify_message e := by
  simp [classify_error, h0]

/-- C6: for every recognized status code (`429`, `401`, `403`, or any
code `≥ 400`), `classify_error` returns the status-code-derived kind —
`429 → rate_limit`, `401|403 → auth_error`, `≥500 → service_error`,
other `≥400 → validation_error` — independently of the error's message
text. -/
theorem C6_status_code_priority (e e' : String) (c : Nat) (hc : 400 ≤ c) :
    classify_error e (some c) = classify_error e' (some c)
    ∧ (c = 429 → classify_error e (some c) = .rate_limit)
    ∧ (c = 401 ∨ c = 403 → classify_error e (some c) = .auth_error)
    ∧ (500 ≤ c → classify_error e (some c) = .service_error)
    ∧ (c ≠ 429 → c ≠ 401 → c ≠ 403 → c < 500 →
        classify_error e (some c) = .validation_error) := by
  have h0 : c ≠ 0 := by omega
  rw [classify_error_some e c h0, classify_error_some e' c h0]
  refine ⟨?_, ?_, ?_, ?_, ?_⟩
  · split_ifs <;> first | rfl | omega
  · intro h; subst h; norm_num
  · rintro (h | h) <;> subst h <;> norm_num
  · intro h; split_ifs <;> first | rfl | omega
  · intro h1 h2 h3 h4; split_ifs <;> first | rfl | omega

/-- Witness for C6 at status code 503. -/
theorem C6_status_code_priority_witness :
    400 ≤ 503
    ∧ (classify_error "boom" (some 503) = classify_error "other text" (some 503)
        ∧ (503 = 429 → classify_error "boom" (some 503) = .rate_limit)
        ∧ (503 = 401 ∨ 503 = 403 → classify_error "boom" (some 503) = .auth_error)
        ∧ (500 ≤ 503 → classify_error "boom" (some 503) = .service_error)
        ∧ (503 ≠ 429 → 503 ≠ 401 → 503 ≠ 403 → 503 < 500 →
            classify_error "boom" (some 503) = .validation_error)) :=
  ⟨by norm_num, C6_status_code_priority "boom" "other text" 503 (by norm_num)⟩

/-- C8: for every retry policy with nonnegative delay parameters and
every attempt index `n`, the delay without jitter is exactly
`min (base_delay * exponential_base ^ n) max_delay`, and with jitter
(random sample `r ∈ [0,1)`) the delay lies in `[d/2, d]` for `d` the
unjittered value. -/
theorem C8_backoff_bounds (s : RetryStrategy) (n : Nat) (r : ℚ)
    (hb : 0 ≤ s.base_delay) (he : 0 ≤ s.exponential_base) (hm : 0 ≤ s.max_delay)
    (hr0 : 0 ≤ r) (hr1 : r < 1) :
    (s.jitter = false →
      s.get_delay n r = min (s.base_delay * s.exponential_base ^ n) s.max_delay)
    ∧ (s.jitter = true →
      (1/2) * min (s.base_delay * s.exponential_base ^ n) s.max_delay
          ≤ s.get_delay n r
        ∧ s.get_delay n r
          ≤ min (s.base_delay * s.exponential_base ^ n) s.max_delay) := by
  have hd : 0 ≤ min (s.base_delay * s.exponential_base ^ n) s.max_delay :=
    le_min (mul_nonneg hb (pow_nonneg he n)) hm
  constructor
  · intro hj
    simp [RetryStrategy.get_delay, hj]
  · intro hj
    simp only [RetryStrategy.get_delay, hj, if_true]
    constructor
    · nlinarith [hd, hr0]
    · nlinarith [hd, hr1]

/-- Witness for C8 at the rate-limit policy, attempt 1, sample 1/2. -/
theorem C8_backoff_bounds_witness :
    (0 ≤ (retry_strategies .rate_limit).base_delay
      ∧ 0 ≤ (retry_strategies .rate_limit).exponential_base
      ∧ 0 ≤ (retry_strategies .rate_limit).max_delay
      ∧ (0:ℚ) ≤ 1/2 ∧ (1:ℚ)/2 < 1)
    ∧ (((retry_strategies .rate_limit).jitter = false →
        (retry_strategies .rate_limit).get_delay 1 (1/2)
          = min ((retry_strategies .rate_limit).base_delay
              * (retry_strategies .rate_limit).exponential_base ^ 1)
            (retry_strategies .rate_limit).max_delay)
      ∧ ((retry_strategies .rate_limit).jitter = true →
        (1/2) * min ((retry_strategies .rate_limit).base_delay
              * (retry_strategies .rate_limit).exponential_base ^ 1)
            (retry_strategies .rate_limit).max_delay
          ≤ (retry_strategies .rate_limit).get_delay 1 (1/2)
        ∧ (retry_strategies .rate_limit).get_delay 1 (1/2)
          ≤ min ((retry_strategies .rate_limit).base_delay
              * (retry_strategies .rate_limit).exponential_base ^ 1)
            (retry_strategies .rate_limit).max_delay)) :=
  ⟨⟨by norm_num [retry_strategies, RetryStrategy.default],
    by norm_num [retry_strategies, RetryStrategy.default],
    by norm_num [retry_strategies, RetryStrategy.default],
    by norm_num, by norm_num⟩,
   C8_backoff_bounds (retry_strategies .rate_limit) 1 (1/2)
    (by norm_num [retry_strategies, RetryStrategy.default])
    (by norm_num [retry_strategies, RetryStrategy.default])
    (by norm_num [retry_strategies, RetryStrategy.default])
    (by norm_num) (by norm_num)⟩

/-- C4 counterexample: a serialized `token` event carries the four
top-level fields, but its `data` object's fields are `token` and
`position` — not `text` and `position` as the claim states
(`TokenData.token`, `backend/models.py` line 92). -/
theorem C4_counterexample :
    (StreamEvent.model_dump_json
        { type := "token", pane_id := "pane-1"
          data := .token { token := "hi", position := 0 }, timestamp := "t0" }).fieldNames
      = ["type", "pane_id", "data", "timestamp"]
    ∧ (EventData.toJson (.token { token := "hi", position := 0 })).fieldNames
      = ["token", "position"]
    ∧ ["token", "position"] ≠ ["text", "position"] := by
  refine ⟨rfl, rfl, by decide⟩

/-- C4 amended: every serialized `StreamEvent` carries exactly the
fields `type`, `pane_id`, `data`, `timestamp`, and for a `token` event
the `data` object's fields are `token` and `position`. -/
theorem C4_token_event_fields (ev : StreamEvent) (pid ts : String) (d : TokenData) :
    (StreamEvent.model_dump_json ev).fieldNames
      = ["type", "pane_id", "data", "timestamp"]
    ∧ (StreamEvent.model_dump_json
        { type := "token", pane_id := pid, data := .token d, timestamp := ts }).fieldNames
      = ["type", "pane_id", "data", "timestamp"]
    ∧ (EventData.toJson (.token d)).fieldNames = ["token", "position"] :=
  ⟨rfl, rfl, rfl⟩

/-- C2 counterexample: a breaker opened at time 0 with a 60 s recovery
timeout, probed at time 100: the first `can_execute` transitions it to
half-open and returns `true`, but the second and third calls on the
half-open breaker also return `true` — more than one call is let
through, refuting "no further call to `can_execute()` returns true". -/
theorem C2_counterexample :
    CircuitBreaker.can_execute
        { failure_threshold := 5, recovery_timeout := 60, failure_count := 5
          last_failure_time := some 0, state := .open } 100
      = some (true,
          { failure_threshold := 5, recovery_timeout := 60, failure_count := 5
            last_failure_time := some 0, state := .halfOpen })
    ∧ CircuitBreaker.can_execute
        { failure_threshold := 5, recovery_timeout := 60, failure_count := 5
          last_failure_time := some 0, state := .halfOpen } 100
      = some (true,
          { failure_threshold := 5, recovery_timeout := 60, failure_count := 5
            last_failure_time := some 0, state := .halfOpen })
    ∧ CircuitBreaker.can_execute
        { failure_threshold := 5, recovery_timeout := 60, failure_count := 5
          last_failure_time := some 0, state := .halfOpen } 200
      = some (true,
          { failure_threshold := 5, recovery_timeout := 60, failure_count := 5
            last_failure_time := some 0, state := .halfOpen }) := by
  refine ⟨?_, rfl, rfl⟩
  simp [CircuitBreaker.can_execute]
  norm_num

/-- C2 amended: once `recovery_timeout` has elapsed, the first
`can_execute` transitions an open breaker to half-open and returns
true; in the half-open state every further `can_execute` call also
returns true (leaving the state unchanged) until an outcome is
recorded — `record_success` closes the breaker. -/
theorem C2_half_open_allows_calls (cb cb' : CircuitBreaker) (t now now' : ℚ)
    (hst : cb.state = .open) (hlf : cb.last_failure_time = some t)
    (helap : cb.recovery_timeout < now - t)
    (hst' : cb'.state = .halfOpen) :
    cb.can_execute now = some (true, { cb with state := .halfOpen })
    ∧ cb'.can_execute now' = some (true, cb')
    ∧ cb'.record_success.state = .closed := by
  refine ⟨?_, ?_, rfl⟩
  · simp [CircuitBreaker.can_execute, hst, hlf, helap]
  · simp [CircuitBreaker.can_execute, hst']

/-- Witness for C2 at a breaker opened at time 0 and probed at 100. -/
theorem C2_half_open_allows_calls_witness :
    ({ failure_threshold := 5, recovery_timeout := 60, failure_count := 5
       last_failure_time := some 0, state := .open } : CircuitBreaker).state = .open
    ∧ (CircuitBreaker.can_execute
        { failure_threshold := 5, recovery_timeout := 60, failure_count := 5
          last_failure_time := some 0, state := .open } 100
      = some (true,
          { failure_threshold := 5, recovery_timeout := 60, failure_count := 5
            last_failure_time := some 0, state := .halfOpen })
      ∧ CircuitBreaker.can_execute
          { failure_threshold := 5, recovery_timeout := 60, failure_count := 5
            last_failure_time := some 0, state := .halfOpen } 200
        = some (true,
            { failure_threshold := 5, recovery_timeout := 60, failure_count := 5
              last_failure_time := some 0, state := .halfOpen })
      ∧ (CircuitBreaker.record_success
          { failure_threshold := 5, recovery_timeout := 60, failure_count := 5
            last_failure_time := some 0, state := .halfOpen }).state = .closed) :=
  ⟨rfl, C2_half_open_allows_calls _ _ 0 100 200 rfl rfl (by norm_num) rfl⟩

/-- When every attempt fails with the same message `e` of kind `K`,
the retry loop performs `min (max attempt K.max_retries + 1)
(attempt + fuel)` operation invocations in total: it breaks as soon as
the attempt index reaches `K`'s budget, and otherwise runs out of loop
range. -/
theorem retryLoop_const_attempts {α : Type} (rs : ErrorType → RetryStrategy)
    (e : String) (now : ℚ) (cb : CircuitBreaker) (K : ErrorType)
    (hcl : classify_error e none = K) :
    ∀ fuel attempt le sl,
      (retryLoop rs (fun _ => (Except.error e : Except String α)) now cb
          attempt fuel le sl).attempts
        = min (max attempt (rs K).max_retries + 1) (attempt + fuel) := by
  intro fuel
  induction fuel with
  | zero =>
      intro attempt le sl
      simp only [retryLoop, Nat.add_zero]
      omega
  | succ fuel ih =>
      intro attempt le sl
      simp only [retryLoop, hcl]
      by_cases h : (rs K).max_retries ≤ attempt
      · rw [if_pos h]
        simp only
        omega
      · rw [if_neg h, ih]
        omega

/-- When every attempt fails with the same message `e`, the loop
propagates that error. -/
theorem retryLoop_const_result {α : Type} (rs : ErrorType → RetryStrategy)
    (e : String) (now : ℚ) (cb : CircuitBreaker) :
    ∀ fuel attempt le sl, (le = some e ∨ 0 < fuel) →
      (retryLoop rs (fun _ => (Except.error e : Except String α)) now cb
          attempt fuel le sl).result = .error e := by
  intro fuel
  induction fuel with
  | zero =>
      intro attempt le sl h
      rcases h with h | h
      · subst h; rfl
      · omega
  | succ fuel ih =>
      intro attempt le sl _
      simp only [retryLoop]
      by_cases h : (rs (classify_error e none)).max_retries ≤ attempt
      · rw [if_pos h]
      · rw [if_neg h]
        exact ih (attempt + 1) (some e) (sl + 1) (Or.inl rfl)

/-- When the failing kind's budget covers the whole remaining loop
range, the loop never breaks and the fall-through records exactly one
breaker failure. -/
theorem retryLoop_const_breaker {α : Type} (rs : ErrorType → RetryStrategy)
    (e : String) (now : ℚ) (cb : CircuitBreaker) (K : ErrorType)
    (hcl : classify_error e none = K) :
    ∀ fuel attempt le sl, attempt + fuel ≤ (rs K).max_retries →
      (retryLoop rs (fun _ => (Except.error e : Except String α)) now cb
          attempt fuel le sl).breaker = cb.record_failure now := by
  intro fuel
  induction fuel with
  | zero => intro attempt le sl _; rfl
  | succ fuel ih =>
      intro attempt le sl h
      simp only [retryLoop, hcl]
      rw [if_neg (by omega)]
      exact ih (attempt + 1) (some e) (sl + 1) (by omega)

/-- C7: a first failure whose classified kind has `max_retries = 0`
(`auth_error` and `validation_error`) makes the executor invoke the
operation exactly once, sleep zero times, and propagate the error
(recording the break-path double breaker failure). -/
theorem C7_no_retry_kinds {α : Type} (op : Nat → Except String α) (e : String)
    (provider : String) (now : ℚ) (cb : CircuitBreaker)
    (hcb : cb.state = .closed)
    (hop : op 0 = .error e)
    (hmr : (retry_strategies (classify_error e none)).max_retries = 0) :
    execute_with_retry retry_strategies op provider now cb
      = some { result := .error e, attempts := 1, sleeps := 0
               breaker := (cb.record_failure now).record_failure now } := by
  simp only [execute_with_retry, CircuitBreaker.can_execute, hcb]
  simp only [retryLoop, hop, hmr, Nat.le_refl, if_pos]

/-- Witness for C7: an `"unauthorized"` failure (kind `auth_error`,
budget 0) on a fresh breaker is attempted exactly once. -/
theorem C7_no_retry_kinds_witness :
    CircuitBreaker.fresh.state = .closed
    ∧ ((fun _ => (Except.error "unauthorized" : Except String Unit)) 0
        = .error "unauthorized")
    ∧ (retry_strategies (classify_error "unauthorized" none)).max_retries = 0
    ∧ execute_with_retry retry_strategies
        (fun _ => (Except.error "unauthorized" : Except String Unit)) "p" 0
        CircuitBreaker.fresh
      = some { result := .error "unauthorized", attempts := 1, sleeps := 0
               breaker := (CircuitBreaker.fresh.record_failure 0).record_failure 0 } :=
  ⟨rfl, rfl, by decide,
   C7_no_retry_kinds (fun _ => (Except.error "unauthorized" : Except String Unit))
    "unauthorized" "p" 0 CircuitBreaker.fresh rfl rfl (by decide)⟩

/-- C1 counterexample: with every attempt failing as `rate_limit`
(budget 5, so the claim predicts 6 attempts), a fresh-breaker executor
call invokes the operation only 3 times — the loop range at line 197
of `error_handler.py` is `unknown_error`'s budget + 1, not the
classified kind's. -/
theorem C1_counterexample :
    classify_error "rate limit" none = ErrorType.rate_limit
    ∧ (retry_strategies ErrorType.rate_limit).max_retries + 1 = 6
    ∧ (execute_with_retry retry_strategies
        (fun _ => (Except.error "rate limit" : Except String Unit)) "p" 0
        CircuitBreaker.fresh).map RetryOutcome.attempts = some 3
    ∧ some 3 ≠ some ((retry_strategies ErrorType.rate_limit).max_retries + 1) := by
  refine ⟨by decide, by decide, rfl, by decide⟩

/-- C1 amended: when every attempt fails with the same message of kind
`K`, the operation is attempted exactly
`min K.max_retries unknown_error.max_retries + 1` times (the loop
range is bounded by `unknown_error`'s budget, 2, so at most 3
attempts) before the last error is propagated. -/
theorem C1_retry_budget_capped (e provider : String) (K : ErrorType) (now : ℚ)
    (cb : CircuitBreaker) (hcb : cb.state = .closed)
    (hcl : classify_error e none = K) :
    (execute_with_retry retry_strategies
        (fun _ => (Except.error e : Except String Unit)) provider now cb).map
        RetryOutcome.attempts
      = some (min (retry_strategies K).max_retries
          (retry_strategies ErrorType.unknown_error).max_retries + 1)
    ∧ (execute_with_retry retry_strategies
        (fun _ => (Except.error e : Except String Unit)) provider now cb).map
        RetryOutcome.result
      = some (.error e) := by
  simp only [execute_with_retry, CircuitBreaker.can_execute, hcb, Option.map_some']
  constructor
  · rw [retryLoop_const_attempts retry_strategies e now cb K hcl
        ((retry_strategies ErrorType.unknown_error).max_retries + 1) 0 none 0]
    simp only [Option.some.injEq]
    omega
  · rw [retryLoop_const_result retry_strategies e now cb
        ((retry_strategies ErrorType.unknown_error).max_retries + 1) 0 none 0
        (Or.inr (Nat.succ_pos _))]

/-- Witness for C1 amended: rate-limit failures give
`min 5 2 + 1 = 3` attempts. -/
theorem C1_retry_budget_capped_witness :
    CircuitBreaker.fresh.state = .closed
    ∧ classify_error "rate limit" none = ErrorType.rate_limit
    ∧ (execute_with_retry retry_strategies
        (fun _ => (Except.error "rate limit" : Except String Unit)) "p" 0
        CircuitBreaker.fresh).map RetryOutcome.attempts
      = some (min (retry_strategies ErrorType.rate_limit).max_retries
          (retry_strategies ErrorType.unknown_error).max_retries + 1)
    ∧ (execute_with_retry retry_strategies
        (fun _ => (Except.error "rate limit" : Except String Unit)) "p" 0
        CircuitBreaker.fresh).map RetryOutcome.result
      = some (.error "rate limit") :=
  ⟨rfl, by decide,
   C1_retry_budget_capped "rate limit" "p" ErrorType.rate_limit 0
    CircuitBreaker.fresh rfl (by decide)⟩

/-- One executor call on a closed breaker, all of whose attempts fail
with a kind whose budget exceeds the loop range, records exactly one
breaker failure. -/
theorem stepBreaker_closed (e provider : String) (K : ErrorType) (now : ℚ)
    (cb : CircuitBreaker) (hcl : classify_error e none = K)
    (hmr : (retry_strategies ErrorType.unknown_error).max_retries
        < (retry_strategies K).max_retries)
    (hst : cb.state = .closed) :
    stepBreaker e provider now cb = cb.record_failure now := by
  simp only [stepBreaker, execute_with_retry, CircuitBreaker.can_execute, hst]
  exact retryLoop_const_breaker retry_strategies e now cb K hcl
    ((retry_strategies ErrorType.unknown_error).max_retries + 1) 0 none 0 (by omega)

/-- C5 counterexample: inside the executor, classification never uses
a status code (`classify_error(error)` at line 217 of
`error_handler.py`), so a 500-style failure message is classified
`unknown_error`, not `service_error`; with such failures each call
records two breaker failures (break path), the breaker is already open
after three calls, and it is the fourth call — not the sixth — that is
blocked with zero attempts. -/
theorem C5_counterexample :
    classify_error "Internal Server Error" none = ErrorType.unknown_error
    ∧ ErrorType.unknown_error ≠ ErrorType.service_error
    ∧ (breakerAfterCalls "Internal Server Error" "p" [0, 0, 0]
        CircuitBreaker.fresh).state = CBState.open
    ∧ (execute_with_retry retry_strategies
        (fun _ => (Except.error "Internal Server Error" : Except String Unit)) "p" 0
        (breakerAfterCalls "Internal Server Error" "p" [0, 0, 0]
          CircuitBreaker.fresh)).map RetryOutcome.attempts = some 0 := by
  refine ⟨by decide, by decide, rfl, ?_⟩
  have hb : breakerAfterCalls "Internal Server Error" "p" [0, 0, 0] CircuitBreaker.fresh
      = { failure_threshold := 5, recovery_timeout := 60, failure_count := 6
          last_failure_time := some 0, state := .open } := rfl
  rw [hb]
  simp only [execute_with_retry, CircuitBreaker.can_execute]
  rw [if_neg (by norm_num)]
  rfl

/-- C5 amended: for failures classified to a kind whose retry budget
exceeds the executor's loop range (`timeout`, `network_error`,
`rate_limit`; `service_error` itself is unreachable inside the
executor since no status code is passed), five successive failing
calls each record one breaker failure, leaving the provider's breaker
open, and a sixth call within the recovery timeout fails immediately
with the distinct circuit-open error, invoking the operation zero
times and recording nothing. -/
theorem C5_breaker_opens_after_five (e provider : String) (K : ErrorType)
    (t1 t2 t3 t4 t5 t6 : ℚ)
    (hcl : classify_error e none = K)
    (hmr : (retry_strategies ErrorType.unknown_error).max_retries
        < (retry_strategies K).max_retries)
    (ht : t6 - t5 ≤ 60) :
    breakerAfterCalls e provider [t1, t2, t3, t4, t5] CircuitBreaker.fresh
      = { failure_threshold := 5, recovery_timeout := 60, failure_count := 5
          last_failure_time := some t5, state := .open }
    ∧ execute_with_retry retry_strategies
        (fun _ => (Except.error e : Except String Unit)) provider t6
        (breakerAfterCalls e provider [t1, t2, t3, t4, t5] CircuitBreaker.fresh)
      = some { result := .error ("Circuit breaker open for provider " ++ provider)
               attempts := 0, sleeps := 0
               breaker := breakerAfterCalls e provider [t1, t2, t3, t4, t5]
                 CircuitBreaker.fresh } := by
  have h1 : stepBreaker e provider t1 CircuitBreaker.fresh
      = { failure_threshold := 5, recovery_timeout := 60, failure_count := 1
          last_failure_time := some t1, state := .closed } := by
    rw [stepBreaker_closed e provider K t1 _ hcl hmr rfl]
    rfl
  have h2 : stepBreaker e provider t2
      ({ failure_threshold := 5, recovery_timeout := 60, failure_count := 1
         last_failure_time := some t1, state := .closed } : CircuitBreaker)
      = { failure_threshold := 5, recovery_timeout := 60, failure_count := 2
          last_failure_time := some t2, state := .closed } := by
    rw [stepBreaker_closed e provider K t2 _ hcl hmr rfl]
    rfl
  have h3 : stepBreaker e provider t3
      ({ failure_threshold := 5, recovery_timeout := 60, failure_count := 2
         last_failure_time := some t2, state := .closed } : CircuitBreaker)
      = { failure_threshold := 5, recovery_timeout := 60, failure_count := 3
          last_failure_time := some t3, state := .closed } := by
    rw [stepBreaker_closed e provider K t3 _ hcl hmr rfl]
    rfl
  have h4 : stepBreaker e provider t4
      ({ failure_threshold := 5, recovery_timeout := 60, failure_count := 3
         last_failure_time := some t3, state := .closed } : CircuitBreaker)
      = { failure_threshold := 5, recovery_timeout := 60, failure_count := 4
          last_failure_time := some t4, state := .closed } := by
    rw [stepBreaker_closed e provider K t4 _ hcl hmr rfl]
    rfl
  have h5 : stepBreaker e provider t5
      ({ failure_threshold := 5, recovery_timeout := 60, failure_count := 4
         last_failure_time := some t4, state := .closed } : CircuitBreaker)
      = { failure_threshold := 5, recovery_timeout := 60, failure_count := 5
          last_failure_time := some t5, state := .open } := by
    rw [stepBreaker_closed e provider K t5 _ hcl hmr rfl]
    rfl
  have hchain : breakerAfterCalls e provider [t1, t2, t3, t4, t5] CircuitBreaker.fresh
      = { failure_threshold := 5, recovery_timeout := 60, failure_count := 5
          last_failure_time := some t5, state := .open } := by
    simp only [breakerAfterCalls, List.foldl]
    rw [h1, h2, h3, h4, h5]
  refine ⟨hchain, ?_⟩
  rw [hchain]
  simp only [execute_with_retry, CircuitBreaker.can_execute]
  rw [if_neg (by simp only [not_lt]; linarith)]

/-- Witness for C5 amended: `"timed out"` failures (kind `timeout`,
budget 3 > 2) at times 0..0. -/
theorem C5_breaker_opens_after_five_witness :
    classify_error "timed out" none = ErrorType.timeout
    ∧ (retry_strategies ErrorType.unknown_error).max_retries
        < (retry_strategies ErrorType.timeout).max_retries
    ∧ (0:ℚ) - 0 ≤ 60
    ∧ breakerAfterCalls "timed out" "p" [0, 0, 0, 0, 0] CircuitBreaker.fresh
      = { failure_threshold := 5, recovery_timeout := 60, failure_count := 5
          last_failure_time := some 0, state := .open }
    ∧ execute_with_retry retry_strategies
        (fun _ => (Except.error "timed out" : Except String Unit)) "p" 0
        (breakerAfterCalls "timed out" "p" [0, 0, 0, 0, 0] CircuitBreaker.fresh)
      = some { result := .error ("Circuit breaker open for provider " ++ "p")
               attempts := 0, sleeps := 0
               breaker := breakerAfterCalls "timed out" "p" [0, 0, 0, 0, 0]
                 CircuitBreaker.fresh } :=
  ⟨by decide, by decide, by norm_num,
   (C5_breaker_opens_after_five "timed out" "p" ErrorType.timeout 0 0 0 0 0 0
      (by decide) (by decide) (by norm_num)).1,
   (C5_breaker_opens_after_five "timed out" "p" ErrorType.timeout 0 0 0 0 0 0
      (by decide) (by decide) (by norm_num)).2⟩

/-- C3 counterexample: a connection whose very first send raises
`WebSocketDisconnect` (failure counter still 0) is removed from the
connection table and the session index by that same broadcast — the
disconnect branch at line 183 of `websocket_manager.py` neither
increments `failed_sends` nor waits for the counter to reach 3. -/
theorem C3_counterexample :
    ((ManagerState.empty.connect "c" "s" 0).connections "c").map ConnInfo.failed_sends
      = some 0
    ∧ (((ManagerState.empty.connect "c" "s" 0).send_event "s"
        (fun _ => .wsDisconnect)).1.connections "c") = none
    ∧ (((ManagerState.empty.connect "c" "s" 0).send_event "s"
        (fun _ => .wsDisconnect)).1.session_connections "s") = none := by
  refine ⟨rfl, by decide, by decide⟩

/-- C3 amended: a non-disconnect send failure increments the
connection's `failed_sends` counter, and only when the counter reaches
`max_failed_sends = 3` is the connection marked dead and removed from
the table and session index — a connection with fewer than 3
consecutive failures stays registered with its counter bumped; a
transport-level `WebSocketDisconnect`, by contrast, removes the
connection immediately without touching the counter. -/
theorem C3_failed_send_policy (k : Nat) (b : Bool) (t : ℚ) :
    (k + 1 < max_failed_sends →
      ((singleConnState k b t).send_event "s" (fun _ => .sendError)).1.connections "c"
        = some { session_id := "s", connected_at := t, last_ping := t
                 failed_sends := k + 1, is_alive := b }
      ∧ ((singleConnState k b t).send_event "s"
          (fun _ => .sendError)).1.session_connections "s" = some ["c"])
    ∧ (max_failed_sends ≤ k + 1 →
      ((singleConnState k b t).send_event "s" (fun _ => .sendError)).1.connections "c"
        = none
      ∧ ((singleConnState k b t).send_event "s"
          (fun _ => .sendError)).1.session_connections "s" = none)
    ∧ ((singleConnState k b t).send_event "s"
        (fun _ => .wsDisconnect)).1.connections "c" = none := by
  refine ⟨?_, ?_, ?_⟩
  · intro h
    have h3 : ¬ max_failed_sends ≤ k + 1 := by omega
    constructor <;>
      simp [ManagerState.send_event, sendLoop, singleConnState, upd, h3]
  · intro h3
    constructor <;>
      simp [ManagerState.send_event, sendLoop, singleConnState, upd,
        ManagerState.disconnect, h3]
  · simp [ManagerState.send_event, sendLoop, singleConnState, upd,
      ManagerState.disconnect]

/-- Witness for C3 amended: a first failure (counter 0 → 1) keeps the
connection registered, a third failure (counter 2 → 3) removes it. -/
theorem C3_failed_send_policy_witness :
    (0 + 1 < max_failed_sends
      ∧ ((singleConnState 0 true 0).send_event "s"
          (fun _ => .sendError)).1.connections "c"
        = some { session_id := "s", connected_at := 0, last_ping := 0
                 failed_sends := 0 + 1, is_alive := true })
    ∧ (max_failed_sends ≤ 2 + 1
      ∧ ((singleConnState 2 true 0).send_event "s"
          (fun _ => .sendError)).1.connections "c" = none) :=
  ⟨⟨by decide, ((C3_failed_send_policy 0 true 0).1 (by decide)).1⟩,
   ⟨by decide, ((C3_failed_send_policy 2 true 0).2.1 (by decide)).1⟩⟩

/-- Updating a map at `k` yields the new value at `k`. -/
theorem upd_self {β : Type} (f : String → Option β) (k : String) (v : Option β) :
    upd f k v k = v := by
  simp [upd]

/-- Updating a map at `k` leaves other keys unchanged. -/
theorem upd_other {β : Type} (f : String → Option β) (k : String) (v : Option β)
    (x : String) (h : x ≠ k) : upd f k v x = f x := by
  simp [upd, h]

/-- `disconnect` preserves the index ↔ table consistency invariant. -/
theorem disconnect_consistent (st : ManagerState) (c : String)
    (h : Consistent st) : Consistent (st.disconnect c) := by
  obtain ⟨hidx, htbl, hnd⟩ := h
  unfold ManagerState.disconnect
  split
  · exact ⟨hidx, htbl, hnd⟩
  · rename_i info hc
    dsimp only
    split
    · rename_i hl
      obtain ⟨l₀, hl₀, _⟩ := htbl c info hc
      rw [hl] at hl₀
      cases hl₀
    · rename_i l₀ hl₀
      have hnd₀ := hnd _ _ hl₀
      split
      · rename_i he
        refine ⟨?_, ?_, ?_⟩
        · intro sid l cid hsl hcidl
          dsimp only at hsl ⊢
          by_cases hs : sid = info.session_id
          · subst hs
            rw [upd_self] at hsl
            cases hsl
          · rw [upd_other _ _ _ _ hs] at hsl
            obtain ⟨i2, hi2, hs2⟩ := hidx sid l cid hsl hcidl
            have hne : cid ≠ c := by
              intro hEq
              subst hEq
              rw [hc] at hi2
              cases hi2
              exact hs (hs2.symm ▸ rfl)
            exact ⟨i2, (upd_other st.connections c none cid hne).trans hi2, hs2⟩
        · intro cid i2 hci
          dsimp only at hci ⊢
          by_cases hcc : cid = c
          · subst hcc
            rw [upd_self] at hci
            cases hci
          · rw [upd_other _ _ _ _ hcc] at hci
            obtain ⟨l2, hl2, hml2⟩ := htbl cid i2 hci
            by_cases hs : i2.session_id = info.session_id
            · rw [hs, hl₀] at hl2
              cases hl2
              have hmem : cid ∈ l₀.erase c :=
                (List.Nodup.mem_erase_iff hnd₀).mpr ⟨hcc, hml2⟩
              rw [he] at hmem
              exact absurd hmem (List.not_mem_nil cid)
            · exact ⟨l2, (upd_other _ _ _ _ hs).trans hl2, hml2⟩
        · intro sid l hsl
          dsimp only at hsl
          by_cases hs : sid = info.session_id
          · subst hs
            rw [upd_self] at hsl
            cases hsl
          · rw [upd_other _ _ _ _ hs] at hsl
            exact hnd _ _ hsl
      · rename_i he
        refine ⟨?_, ?_, ?_⟩
        · intro sid l cid hsl hcidl
          dsimp only at hsl ⊢
          by_cases hs : sid = info.session_id
          · subst hs
            rw [upd_self] at hsl
            cases hsl
            obtain ⟨hne, hmem⟩ := (List.Nodup.mem_erase_iff hnd₀).mp hcidl
            obtain ⟨i2, hi2, hs2⟩ := hidx info.session_id l₀ cid hl₀ hmem
            exact ⟨i2, (upd_other st.connections c none cid hne).trans hi2, hs2⟩
          · rw [upd_other _ _ _ _ hs] at hsl
            obtain ⟨i2, hi2, hs2⟩ := hidx sid l cid hsl hcidl
            have hne : cid ≠ c := by
              intro hEq
              subst hEq
              rw [hc] at hi2
              cases hi2
              exact hs (hs2.symm ▸ rfl)
            exact ⟨i2, (upd_other st.connections c none cid hne).trans hi2, hs2⟩
        · intro cid i2 hci
          dsimp only at hci ⊢
          by_cases hcc : cid = c
          · subst hcc
            rw [upd_self] at hci
            cases hci
          · rw [upd_other _ _ _ _ hcc] at hci
            obtain ⟨l2, hl2, hml2⟩ := htbl cid i2 hci
            by_cases hs : i2.session_id = info.session_id
            · rw [hs, hl₀] at hl2
              cases hl2
              refine ⟨l₀.erase c, ?_, ?_⟩
              · rw [hs, upd_self]
              · exact (List.Nodup.mem_erase_iff hnd₀).mpr ⟨hcc, hml2⟩
            · exact ⟨l2, (upd_other _ _ _ _ hs).trans hl2, hml2⟩
        · intro sid l hsl
          dsimp only at hsl
          by_cases hs : sid = info.session_id
          · subst hs
            rw [upd_self] at hsl
            cases hsl
            exact hnd₀.erase c
          · rw [upd_other _ _ _ _ hs] at hsl
            exact hnd _ _ hsl

/-- Registering a fresh connection id preserves the index ↔ table
consistency invariant. -/
theorem connect_consistent (st : ManagerState) (c s : String) (now : ℚ)
    (h : Consistent st) (hfresh : st.connections c = none) :
    Consistent (st.connect c s now) := by
  obtain ⟨hidx, htbl, hnd⟩ := h
  unfold ManagerState.connect
  dsimp only
  split
  · rename_i hl
    refine ⟨?_, ?_, ?_⟩
    · intro sid l cid hsl hcidl
      dsimp only at hsl ⊢
      by_cases hs : sid = s
      · subst hs
        rw [upd_self] at hsl
        cases hsl
        have hcc : cid = c := List.mem_singleton.mp hcidl
        subst hcc
        exact ⟨_, upd_self st.connections cid _, rfl⟩
      · rw [upd_other _ _ _ _ hs] at hsl
        obtain ⟨i2, hi2, hs2⟩ := hidx sid l cid hsl hcidl
        have hne : cid ≠ c := fun hEq => by rw [hEq, hfresh] at hi2; cases hi2
        exact ⟨i2, (upd_other _ _ _ _ hne).trans hi2, hs2⟩
    · intro cid i2 hci
      dsimp only at hci ⊢
      by_cases hcc : cid = c
      · subst hcc
        rw [upd_self] at hci
        cases hci
        dsimp only
        refine ⟨[cid], ?_, ?_⟩
        · rw [upd_self]
        · exact List.mem_singleton_self cid
      · rw [upd_other _ _ _ _ hcc] at hci
        obtain ⟨l2, hl2, hml2⟩ := htbl cid i2 hci
        by_cases hs : i2.session_id = s
        · rw [hs, hl] at hl2
          cases hl2
        · exact ⟨l2, (upd_other _ _ _ _ hs).trans hl2, hml2⟩
    · intro sid l hsl
      dsimp only at hsl
      by_cases hs : sid = s
      · subst hs
        rw [upd_self] at hsl
        cases hsl
        exact List.nodup_singleton c
      · rw [upd_other _ _ _ _ hs] at hsl
        exact hnd _ _ hsl
  · rename_i l₀ hl₀
    refine ⟨?_, ?_, ?_⟩
    · intro sid l cid hsl hcidl
      dsimp only at hsl ⊢
      by_cases hs : sid = s
      · subst hs
        rw [upd_self] at hsl
        cases hsl
        rcases List.mem_insert_iff.mp hcidl with hcc | hmem
        · subst hcc
          exact ⟨_, upd_self st.connections cid _, rfl⟩
        · obtain ⟨i2, hi2, hs2⟩ := hidx _ l₀ cid hl₀ hmem
          have hne : cid ≠ c := fun hEq => by rw [hEq, hfresh] at hi2; cases hi2
          exact ⟨i2, (upd_other _ _ _ _ hne).trans hi2, hs2⟩
      · rw [upd_other _ _ _ _ hs] at hsl
        obtain ⟨i2, hi2, hs2⟩ := hidx sid l cid hsl hcidl
        have hne : cid ≠ c := fun hEq => by rw [hEq, hfresh] at hi2; cases hi2
        exact ⟨i2, (upd_other _ _ _ _ hne).trans hi2, hs2⟩
    · intro cid i2 hci
      dsimp only at hci ⊢
      by_cases hcc : cid = c
      · subst hcc
        rw [upd_self] at hci
        cases hci
        dsimp only
        refine ⟨l₀.insert cid, ?_, ?_⟩
        · rw [upd_self]
        · exact List.mem_insert_self cid l₀
      · rw [upd_other _ _ _ _ hcc] at hci
        obtain ⟨l2, hl2, hml2⟩ := htbl cid i2 hci
        by_cases hs : i2.session_id = s
        · rw [hs, hl₀] at hl2
          cases hl2
          exact ⟨l₀.insert c, by rw [hs, upd_self], List.mem_insert_of_mem hml2⟩
        · exact ⟨l2, (upd_other _ _ _ _ hs).trans hl2, hml2⟩
    · intro sid l hsl
      dsimp only at hsl
      by_cases hs : sid = s
      · subst hs
        rw [upd_self] at hsl
        cases hsl
        exact (hnd _ _ hl₀).insert
      · rw [upd_other _ _ _ _ hs] at hsl
        exact hnd _ _ hsl

/-- The broadcast loop only rewrites `failed_sends` / `is_alive` of
existing table entries: the domain and the session assignment of the
connection table are unchanged. -/
theorem sendLoop_session (outcome : String → SendOutcome) :
    ∀ (cids : List String) (conns : String → Option ConnInfo) (x : String),
      ((sendLoop outcome cids conns).1 x).map ConnInfo.session_id
        = (conns x).map ConnInfo.session_id := by
  intro cids
  induction cids with
  | nil => intro conns x; rfl
  | cons cid rest ih =>
      intro conns x
      simp only [sendLoop]
      cases hc : conns cid with
      | none => exact ih conns x
      | some info =>
          cases outcome cid with
          | ok =>
              dsimp only
              rw [ih]
              by_cases hx : x = cid
              · subst hx
                rw [upd_self, hc]
                rfl
              · rw [upd_other _ _ _ _ hx]
          | wsDisconnect => exact ih conns x
          | sendError =>
              dsimp only
              by_cases hfs : max_failed_sends ≤ info.failed_sends + 1
              · simp only [if_pos hfs]
                rw [ih]
                by_cases hx : x = cid
                · subst hx
                  rw [upd_self, hc]
                  rfl
                · rw [upd_other _ _ _ _ hx]
              · simp only [if_neg hfs]
                rw [ih]
                by_cases hx : x = cid
                · subst hx
                  rw [upd_self, hc]
                  rfl
                · rw [upd_other _ _ _ _ hx]

/-- Replacing the connection table by one with the same domain and
session assignment preserves consistency. -/
theorem consistent_of_session_eq (st : ManagerState)
    (conns2 : String → Option ConnInfo)
    (h : Consistent st)
    (hsess : ∀ x, (conns2 x).map ConnInfo.session_id
        = (st.connections x).map ConnInfo.session_id) :
    Consistent
      { connections := conns2, session_connections := st.session_connections } := by
  obtain ⟨hidx, htbl, hnd⟩ := h
  refine ⟨?_, ?_, ?_⟩
  · intro sid l cid hsl hcidl
    dsimp only at hsl ⊢
    obtain ⟨i2, hi2, hs2⟩ := hidx sid l cid hsl hcidl
    have hm := hsess cid
    rw [hi2] at hm
    obtain ⟨i3, hi3, hs3⟩ := Option.map_eq_some'.mp hm
    exact ⟨i3, hi3, hs3.trans hs2⟩
  · intro cid i3 hci
    dsimp only at hci ⊢
    have hm := hsess cid
    rw [hci] at hm
    cases hc2 : st.connections cid with
    | none =>
        rw [hc2] at hm
        cases hm
    | some i2 =>
        rw [hc2] at hm
        obtain ⟨l2, hl2, hml2⟩ := htbl cid i2 hc2
        have hse : i3.session_id = i2.session_id := by
          simpa using hm
        exact ⟨l2, by rw [hse]; exact hl2, hml2⟩
  · exact hnd

/-- Disconnecting a whole list of connections preserves consistency. -/
theorem foldl_disconnect_consistent :
    ∀ (l : List String) (st : ManagerState), Consistent st →
      Consistent (l.foldl (fun s c => s.disconnect c) st) := by
  intro l
  induction l with
  | nil => intro st h; exact h
  | cons c rest ih =>
      intro st h
      exact ih _ (disconnect_consistent st c h)

/-- The empty manager is consistent. -/
theorem empty_consistent : Consistent ManagerState.empty := by
  refine ⟨?_, ?_, ?_⟩
  · intro sid l cid hsl hcidl
    cases hsl
  · intro cid info hci
    cases hci
  · intro sid l hsl
    cases hsl

/-- C9: every fan-out manager operation — registering a fresh
connection, disconnecting any id, broadcasting to any session —
preserves the consistency of the session index with the connection
table: each indexed id exists in the table under exactly its own
session, and each tabled connection is indexed under exactly its own
session. -/
theorem C9_index_table_consistency (st : ManagerState) (cid cid' sid : String)
    (now : ℚ) (outcome : String → SendOutcome)
    (hcons : Consistent st) (hfresh : st.connections cid = none) :
    Consistent (st.connect cid sid now)
    ∧ Consistent (st.disconnect cid')
    ∧ Consistent (st.send_event sid outcome).1 := by
  refine ⟨connect_consistent st cid sid now hcons hfresh,
    disconnect_consistent st cid' hcons, ?_⟩
  unfold ManagerState.send_event
  split
  · exact hcons
  · rename_i cids hcids
    dsimp only
    refine foldl_disconnect_consistent _ _ ?_
    exact consistent_of_session_eq st _ hcons
      (fun x => sendLoop_session outcome cids st.connections x)

/-- Witness for C9 at the empty manager. -/
theorem C9_index_table_consistency_witness :
    Consistent ManagerState.empty
    ∧ ManagerState.empty.connections "c" = none
    ∧ (Consistent (ManagerState.empty.connect "c" "s" 0)
      ∧ Consistent (ManagerState.empty.disconnect "d")
      ∧ Consistent (ManagerState.empty.send_event "s" (fun _ => .ok)).1) :=
  ⟨empty_consistent, rfl,
   C9_index_table_consistency ManagerState.empty "c" "d" "s" 0 (fun _ => .ok)
    empty_consistent rfl⟩

/-- `disconnect` never leaves an empty id set in the session index. -/
theorem disconnect_nonempty (st : ManagerState) (c : String)
    (h : NonEmptyIdx st) : NonEmptyIdx (st.disconnect c) := by
  unfold ManagerState.disconnect
  split
  · exact h
  · rename_i info hc
    dsimp only
    split
    · exact h
    · rename_i l₀ hl₀
      split
      · intro sid l hsl
        dsimp only at hsl
        by_cases hs : sid = info.session_id
        · subst hs
          rw [upd_self] at hsl
          cases hsl
        · rw [upd_other _ _ _ _ hs] at hsl
          exact h _ _ hsl
      · rename_i he
        intro sid l hsl
        dsimp only at hsl
        by_cases hs : sid = info.session_id
        · subst hs
          rw [upd_self] at hsl
          cases hsl
          exact he
        · rw [upd_other _ _ _ _ hs] at hsl
          exact h _ _ hsl

/-- `connect` never leaves an empty id set in the session index. -/
theorem connect_nonempty (st : ManagerState) (c s : String) (now : ℚ)
    (h : NonEmptyIdx st) : NonEmptyIdx (st.connect c s now) := by
  unfold ManagerState.connect
  dsimp only
  split
  · intro sid l hsl
    dsimp only at hsl
    by_cases hs : sid = s
    · subst hs
      rw [upd_self] at hsl
      cases hsl
      simp
    · rw [upd_other _ _ _ _ hs] at hsl
      exact h _ _ hsl
  · rename_i l₀ hl₀
    intro sid l hsl
    dsimp only at hsl
    by_cases hs : sid = s
    · subst hs
      rw [upd_self] at hsl
      cases hsl
      intro hcon
      have hmem : c ∈ l₀.insert c := List.mem_insert_self c l₀
      rw [hcon] at hmem
      exact absurd hmem (List.not_mem_nil c)
    · rw [upd_other _ _ _ _ hs] at hsl
      exact h _ _ hsl

/-- Disconnecting a list of connections never leaves an empty id set. -/
theorem foldl_disconnect_nonempty :
    ∀ (l : List String) (st : ManagerState), NonEmptyIdx st →
      NonEmptyIdx (l.foldl (fun s c => s.disconnect c) st) := by
  intro l
  induction l with
  | nil => intro st h; exact h
  | cons c rest ih =>
      intro st h
      exact ih _ (disconnect_nonempty st c h)

/-- The empty manager has no (hence no empty) index entries. -/
theorem empty_nonempty_idx : NonEmptyIdx ManagerState.empty := by
  intro sid l hsl
  cases hsl

/-- C10: after every `connect`, `disconnect` or `send_event`, every
session present in the index maps to a non-empty id set (`disconnect`
deletes an entry as soon as it empties), and a session absent from the
index makes `send_event` return `false` leaving the state untouched. -/
theorem C10_nonempty_index (st : ManagerState) (cid cid' sid : String) (now : ℚ)
    (outcome : String → SendOutcome) (h : NonEmptyIdx st) :
    NonEmptyIdx (st.connect cid sid now)
    ∧ NonEmptyIdx (st.disconnect cid')
    ∧ NonEmptyIdx (st.send_event sid outcome).1
    ∧ (st.session_connections sid = none →
        st.send_event sid outcome = (st, false)) := by
  refine ⟨connect_nonempty st cid sid now h, disconnect_nonempty st cid' h, ?_, ?_⟩
  · unfold ManagerState.send_event
    split
    · exact h
    · dsimp only
      exact foldl_disconnect_nonempty _ _ h
  · intro hnone
    unfold ManagerState.send_event
    rw [hnone]

/-- Witness for C10 at the empty manager. -/
theorem C10_nonempty_index_witness :
    NonEmptyIdx ManagerState.empty
    ∧ (NonEmptyIdx (ManagerState.empty.connect "c" "s" 0)
      ∧ NonEmptyIdx (ManagerState.empty.disconnect "d")
      ∧ NonEmptyIdx (ManagerState.empty.send_event "s" (fun _ => .ok)).1
      ∧ (ManagerState.empty.session_connections "s" = none →
          ManagerState.empty.send_event "s" (fun _ => .ok)
            = (ManagerState.empty, false))) :=
  ⟨empty_nonempty_idx,
   C10_nonempty_index ManagerState.empty "c" "d" "s" 0 (fun _ => .ok)
    empty_nonempty_idx⟩

end MLLM
